import Mathlib

/-
Verification development for the crisPy2 repository (src/crisPy2/crisp.py and
src/crisPy2/mixin.py).  The Python code is shallowly embedded: machine floats
become exact rationals, astropy quantities become a unit tag (a string, as the
code compares units against string literals) paired with a (y, x) value pair,
and Python exceptions become an explicit error type.  Fall-through function
bodies, which in Python return None, are modelled explicitly.
-/

namespace CrisPy2

/-- Truthiness of a Python string: non-empty strings are truthy.  Used to
translate boolean expressions such as the condition on line 66 of crisp.py,
where a bare string literal appears as an operand of a logical operator. -/
def pyTruthyStr (s : String) : Bool := !s.isEmpty

/-- Whether the first character list occurs at the start of the second. -/
def subHere : List Char → List Char → Bool
  | [], _ => true
  | _ :: _, [] => false
  | a :: as, b :: bs => a == b && subHere as bs

/-- Whether the first character list occurs contiguously anywhere in the
second. -/
def subAnywhere (sub : List Char) : List Char → Bool
  | [] => subHere sub []
  | b :: bs => subHere sub (b :: bs) || subAnywhere sub bs

/-- The Python substring test `sub in s` on strings. -/
def strContains (sub s : String) : Bool := subAnywhere sub.toList s.toList

/-- Kinds of Python exception relevant to the embedded code.  wiseGuyError is
the module exception class WiseGuyError defined in crisp.py lines 28 to 29;
the others are builtin exception kinds raised by the libraries or the
interpreter. -/
inductive PyErr where
  | keyError
  | indexError
  | typeError
  | nameError
  | attributeError
  | wiseGuyError
  deriving DecidableEq, Repr

/-! ## File-kind dispatch (crisp.py lines 46 to 103, claim C5) -/

/-- Which top-level ingestion branch a single file path reaches. -/
inductive FileBranch where
  | fits
  | hdf5
  | neither
  deriving DecidableEq, Repr

/-- File-kind dispatch for a single path, crisp.py lines 47 and 66.  Line 66
reads `elif ".h5" or ".hdf5" in files:`: the Python `or` evaluates its left
operand first, and the non-empty string literal ".h5" is truthy, so the test
succeeds for every path that does not contain ".fits". -/
def classify_file (files : String) : FileBranch :=
  if strContains ".fits" files then .fits
  else if pyTruthyStr ".h5" || strContains ".hdf5" files then .hdf5
  else .neither

/-- Modelled from the claim wording: dispatch that takes the HDF5 branch
exactly when the name contains ".h5" or ".hdf5".  Kept separate from
`classify_file`, which is translated from the source, to compare the two. -/
def classify_file_claimed (files : String) : FileBranch :=
  if strContains ".fits" files then .fits
  else if strContains ".h5" files || strContains ".hdf5" files then .hdf5
  else .neither

/-! ## Description branch selection (crisp.py lines 120 to 175, claim C1) -/

/-- Which presence branch of CRISP.__str__ is evaluated. -/
inductive DescBranch where
  | bothLines
  | caOnly
  | haOnly
  | noBranch
  deriving DecidableEq, Repr

/-- Branch dispatch of CRISP.__str__, crisp.py lines 121, 142 and 159,
translated with Python truthiness:
line 121 `if "ca" and "ha" in self.__dict__:` evaluates the truthy literal
"ca" and then the membership test, so the condition reduces to `hasHa`;
line 142 `elif "ca" and not "ha" in self.__dict__:` likewise reduces to
`!hasHa`; line 159 `elif not "ca" and "ha" in self.__dict__:` negates the
truthy literal "ca", giving false, and the branch is unreachable. -/
def strBranch (hasCa hasHa : Bool) : DescBranch :=
  if pyTruthyStr "ca" && hasHa then .bothLines
  else if pyTruthyStr "ca" && !hasHa then .caOnly
  else if !pyTruthyStr "ca" && hasHa then .haOnly
  else .noBranch

/-- Modelled from the claim wording: the branch that matches the lines
actually present.  Kept separate from `strBranch`, which is translated from
the source, to compare the two. -/
def strBranchClaimed (hasCa hasHa : Bool) : DescBranch :=
  if hasCa && hasHa then .bothLines
  else if hasCa then .caOnly
  else if hasHa then .haOnly
  else .noBranch

/-! ## HDF5 center-pixel extraction (crisp.py lines 75 and 84, claim C3) -/

/-- Python negative indexing, `l[-i]` for `i ≥ 1`, returning none when the
list is too short (Python raises IndexError). -/
def pyNegIdx (l : List ℤ) (i : Nat) : Option ℤ := l.reverse.get? (i - 1)

/-- Center pixel computed by the calcium branch of single-file HDF5
ingestion, crisp.py line 75:
`self.mid = (header["dimensions"][-2] // 2, header["dimensions"][-1] // 2)`.
Python // on integers is floor division. -/
def h5_mid_single_ca (dims : List ℤ) : Option (ℤ × ℤ) :=
  match pyNegIdx dims 2, pyNegIdx dims 1 with
  | some a, some b => some (Int.fdiv a 2, Int.fdiv b 2)
  | _, _ => none

/-- Center pixel computed by the H-alpha branch of single-file HDF5
ingestion, crisp.py line 84:
`self.mid = (header["dimensions"][-2] // 2, header["dimensions"][-1])`.
The second component is not divided by 2 in the source. -/
def h5_mid_single_ha (dims : List ℤ) : Option (ℤ × ℤ) :=
  match pyNegIdx dims 2, pyNegIdx dims 1 with
  | some a, some b => some (Int.fdiv a 2, b)
  | _, _ => none

/-! ## FITS wavelength fallback (crisp.py lines 50 to 53, claim C4) -/

/-- Wavelength extraction for a FITS file, crisp.py lines 50 to 53:
`try: wvls = header["spect_pos"]` and on KeyError
`wvls = fits.open(files)[1].data`.  `spect_pos` is the primary header value
when the key is present.  `ext1data` describes FITS extension index 1:
`none` when the extension does not exist, in which case the subscript `[1]`
raises IndexError; `some none` when it exists but its data is absent
(`.data` is None, and building a quantity from None raises a TypeError in the
units library); `some (some d)` when data d is present.  No branch raises
WiseGuyError. -/
def fits_wvls (spect_pos : Option (List ℚ)) (ext1data : Option (Option (List ℚ))) :
    Except PyErr (List ℚ) :=
  match spect_pos with
  | some w => .ok w
  | none =>
    match ext1data with
    | none => .error .indexError
    | some none => .error .typeError
    | some (some d) => .ok d

/-! ## Unit conversion (crisp.py lines 44 to 45 and 177 to 239) -/

/-- Solar radius constant, crisp.py line 44: `self.mm_sun = 1391 << u.megameter`. -/
def mm_sun : ℚ := 1391

/-- Solar angular radius constant, crisp.py line 45: `self.ang_sun = 1920 << u.arcsec`. -/
def ang_sun : ℚ := 1920

/-- The per-instance metadata of a CRISP accessor that the conversion and
extraction methods read: pixel resolution (arcsec per pixel, crisp.py
px_res), pointing (arcsec pair, (y, x)), center pixel (pixel pair, mid), and
the number of dimensions of the calcium and H-alpha data arrays. -/
structure CRISP where
  px_res : ℚ
  pointing : ℚ × ℚ
  mid : ℚ × ℚ
  ca_ndim : Nat
  ha_ndim : Nat

/-- A coordinate quantity: a unit tag, compared against string literals the
way the source compares `coord.unit`, and a (y, x) value pair. -/
structure PyCoord where
  unit : String
  val : ℚ × ℚ

/-- Elementwise map over a coordinate pair (astropy quantity arithmetic is
elementwise). -/
def pmap (f : ℚ → ℚ) (p : ℚ × ℚ) : ℚ × ℚ := (f p.1, f p.2)

/-- Elementwise addition of coordinate pairs. -/
def padd (p q : ℚ × ℚ) : ℚ × ℚ := (p.1 + q.1, p.2 + q.2)

/-- Elementwise subtraction of coordinate pairs. -/
def psub (p q : ℚ × ℚ) : ℚ × ℚ := (p.1 - q.1, p.2 - q.2)

/-- Rounding to the nearest integer with ties to the even integer, the
behaviour of np.round used on lines 196, 198 and 219 of crisp.py. -/
def roundHalfEven (q : ℚ) : ℤ :=
  if q - ⌊q⌋ < 1/2 then ⌊q⌋
  else if 1/2 < q - ⌊q⌋ then ⌊q⌋ + 1
  else if ⌊q⌋ % 2 = 0 then ⌊q⌋ else ⌊q⌋ + 1

/-- Elementwise np.round on a coordinate pair, staying in ℚ as the quantity
keeps its unit. -/
def proundq (p : ℚ × ℚ) : ℚ × ℚ :=
  ((roundHalfEven p.1 : ℚ), (roundHalfEven p.2 : ℚ))

/-- CRISP.unit_conversion, crisp.py lines 177 to 239, with explicit fuel for
the bounded self-recursion (the recursive call chains of the method are at
most three calls deep, so fuel 4, supplied by `unit_conversion` below, is
never exhausted).  The result is `.ok none` where the Python method falls
through every branch and returns None.  Line 231 and line 237 call the
method on the result of an inner call; were the inner result None, reading
`.unit` on it would raise AttributeError, which the `.ok none` match arms
record.  Line 234 reads the undefined name `coords` and raises NameError. -/
def unit_conversion_fuel (s : CRISP) :
    Nat → PyCoord → String → Bool → Except PyErr (Option PyCoord)
  | 0, _, _, _ => .ok none
  | n + 1, coord, unit_to, centre =>
    if !centre then
      if unit_to == "pix" then
        if coord.unit == "pix" then .ok (some coord)
        else if coord.unit == "arcsec" then
          .ok (some ⟨"pix", proundq (pmap (fun x => x / s.px_res) coord.val)⟩)
        else if coord.unit == "megameter" then
          .ok (some ⟨"pix", proundq (pmap (fun x => x * ang_sun / mm_sun / s.px_res) coord.val)⟩)
        else .ok none
      else if unit_to == "arcsec" then
        if coord.unit == "pix" then
          .ok (some ⟨"arcsec", pmap (fun x => x * s.px_res) coord.val⟩)
        else if coord.unit == "arcsec" then .ok (some coord)
        else if coord.unit == "megameter" then
          .ok (some ⟨"arcsec", pmap (fun x => x * (ang_sun / mm_sun)) coord.val⟩)
        else .ok none
      else if unit_to == "Mm" then
        if coord.unit == "pix" then
          .ok (some ⟨"megameter", pmap (fun x => x * s.px_res * mm_sun / ang_sun) coord.val⟩)
        else if coord.unit == "arcsec" then
          .ok (some ⟨"megameter", pmap (fun x => x * mm_sun / ang_sun) coord.val⟩)
        else if coord.unit == "megameter" then .ok (some coord)
        else .ok none
      else .ok none
    else
      if unit_to == "pix" then
        if coord.unit == "pix" then .ok (some coord)
        else if coord.unit == "arcsec" then
          .ok (some ⟨"pix", padd s.mid (proundq (pmap (fun x => x / s.px_res) (psub coord.val s.pointing)))⟩)
        else if coord.unit == "megameter" then
          unit_conversion_fuel s n coord "pix" false
        else .ok none
      else if unit_to == "arcsec" then
        if coord.unit == "pix" then
          .ok (some ⟨"arcsec", padd (pmap (fun x => x * s.px_res) (psub coord.val s.mid)) s.pointing⟩)
        else if coord.unit == "arcsec" then
          .ok (some ⟨"arcsec", padd (psub coord.val (pmap (fun x => x * s.px_res) s.mid)) s.pointing⟩)
        else if coord.unit == "megameter" then
          match unit_conversion_fuel s n coord "pix" false with
          | .ok (some c) => unit_conversion_fuel s n c "arcsec" true
          | .ok none => .error .attributeError
          | .error e => .error e
        else .ok none
      else if unit_to == "megameter" then
        if coord.unit == "pix" then .error .nameError
        else if coord.unit == "arcsec" then
          match unit_conversion_fuel s n coord "pix" true with
          | .ok (some c) => unit_conversion_fuel s n c "megameter" false
          | .ok none => .error .attributeError
          | .error e => .error e
        else if coord.unit == "megameter" then .ok (some coord)
        else .ok none
      else .ok none

/-- CRISP.unit_conversion with enough fuel for every reachable call chain. -/
def unit_conversion (s : CRISP) (coord : PyCoord) (unit_to : String) (centre : Bool) :
    Except PyErr (Option PyCoord) :=
  unit_conversion_fuel s 4 coord unit_to centre

/-! ## Rounding lemmas -/

/-- Rounding half to even moves a rational by at most one half. -/
theorem roundHalfEven_abs_sub_le (q : ℚ) : |(roundHalfEven q : ℚ) - q| ≤ 1/2 := by
  have h0 : (⌊q⌋ : ℚ) ≤ q := Int.floor_le q
  have h1 : q < ⌊q⌋ + 1 := Int.lt_floor_add_one q
  unfold roundHalfEven
  split_ifs with hlt hgt hev
  · rw [abs_le]; constructor <;> linarith
  · rw [abs_le]; push_cast; constructor <;> linarith
  · rw [abs_le]; constructor <;> linarith
  · rw [abs_le]; push_cast; constructor <;> linarith

/-- Rounding half to even fixes integers. -/
theorem roundHalfEven_intCast (n : ℤ) : roundHalfEven (n : ℚ) = n := by
  unfold roundHalfEven
  rw [Int.floor_intCast]
  norm_num

/-! ## Theorems for claims C1, C3, C4, C5 -/

/-- Claim C1: the claim says that with only the H-alpha line present the
H-alpha-only branch of __str__ is evaluated and that with neither line
present no branch matches.  Evaluating the code at those inputs: with only
H-alpha present the both-lines branch is selected (the line 121 condition
reduces to the presence of ha alone), and with neither line present the
calcium-only branch is selected, diverging from the claimed dispatch in both
cases. -/
theorem c1_description_branch_bug :
    strBranch false true = DescBranch.bothLines ∧
    strBranchClaimed false true = DescBranch.haOnly ∧
    strBranch false false = DescBranch.caOnly ∧
    strBranchClaimed false false = DescBranch.noBranch := by
  decide

/-- Claim C3: the claim says the center pixel of every single HDF5 file is
the last two entries of the dimensions header, each halved with floor
division.  Evaluating the code at dimensions [5, 100, 50]: the calcium
branch gives (50, 25) as claimed, but the H-alpha branch gives (50, 50),
leaving the second component unhalved. -/
theorem c3_h5_center_pixel_bug :
    h5_mid_single_ha [5, 100, 50] = some (50, 50) ∧
    h5_mid_single_ca [5, 100, 50] = some (50, 25) ∧
    h5_mid_single_ha [5, 100, 50] ≠ h5_mid_single_ca [5, 100, 50] := by
  decide

/-- Claim C4 counterexample: with `spect_pos` absent and FITS extension
index 1 missing, ingestion fails with IndexError, not with the module
exception WiseGuyError the claim names. -/
theorem c4_fits_missing_wvls_counterexample :
    fits_wvls none none = Except.error PyErr.indexError ∧
    PyErr.indexError ≠ PyErr.wiseGuyError := by
  exact ⟨rfl, by decide⟩

/-- Claim C4 amended: when the primary header lacks `spect_pos` and FITS
extension index 1 does not exist or lacks data, construction fails, but with
the underlying error of the reader (IndexError when the extension is absent,
a TypeError when its data is absent), never with WiseGuyError. -/
theorem c4_fits_missing_wvls_amended (ext1data : Option (Option (List ℚ)))
    (h : ext1data = none ∨ ext1data = some none) :
    ∃ e, fits_wvls none ext1data = Except.error e ∧ e ≠ PyErr.wiseGuyError := by
  rcases h with h | h <;> subst h
  · exact ⟨PyErr.indexError, rfl, by decide⟩
  · exact ⟨PyErr.typeError, rfl, by decide⟩

/-- Claim C4 amended, witness at the concrete input where extension index 1
is absent. -/
theorem c4_fits_missing_wvls_amended_witness :
    ∃ e, fits_wvls none none = Except.error e ∧ e ≠ PyErr.wiseGuyError :=
  c4_fits_missing_wvls_amended none (Or.inl rfl)

/-- Claim C5: the claim says a path containing neither ".fits" nor
".h5"/".hdf5" is processed by neither branch.  Evaluating the code at the
path "spectra.txt", which contains none of the three substrings: the HDF5
branch is taken, because the line 66 condition contains the truthy string
literal ".h5" and is therefore always satisfied; the dispatch the claim
describes takes neither branch there. -/
theorem c5_extension_dispatch_bug :
    classify_file "spectra.txt" = FileBranch.hdf5 ∧
    classify_file_claimed "spectra.txt" = FileBranch.neither ∧
    strContains ".fits" "spectra.txt" = false ∧
    strContains ".h5" "spectra.txt" = false ∧
    strContains ".hdf5" "spectra.txt" = false := by
  decide

/-! ## Theorems for claims C2, C7, C8 -/

/-- Claim C2: for every coordinate in megametre units, unit conversion to
arcseconds with centre true returns exactly the two-step composition of the
source, crisp.py line 231: first the centre-false conversion to pixel units,
then the centre-true conversion of that result to arcseconds, and the result
is present (never the absent result None). -/
theorem c2_mm_to_arcsec_centred_two_step (s : CRISP) (v : ℚ × ℚ) :
    ∃ p q : PyCoord,
      unit_conversion s ⟨"megameter", v⟩ "pix" false = Except.ok (some p) ∧
      unit_conversion s p "arcsec" true = Except.ok (some q) ∧
      unit_conversion s ⟨"megameter", v⟩ "arcsec" true = Except.ok (some q) :=
  ⟨_, _, rfl, rfl, rfl⟩

/-- Claim C7: for every accessor state with positive pixel resolution,
converting the coordinate equal to the center pixel (in pixel units) to
arcseconds with centre true yields exactly the pointing, by crisp.py
line 225. -/
theorem c7_centre_pixel_pointing (s : CRISP) (h : 0 < s.px_res) :
    unit_conversion s ⟨"pix", s.mid⟩ "arcsec" true
      = Except.ok (some ⟨"arcsec", s.pointing⟩) := by
  obtain ⟨pr, ⟨p1, p2⟩, ⟨m1, m2⟩, cnd, hnd⟩ := s
  have hv : padd (pmap (fun x => x * pr) (psub (m1, m2) (m1, m2))) (p1, p2) = (p1, p2) := by
    simp [padd, pmap, psub]
  exact congrArg (fun z => Except.ok (some (PyCoord.mk "arcsec" z))) hv

/-- Claim C7 witness at a concrete accessor: pointing (100, 200) arcsec,
center pixel (512, 512), pixel resolution 59/1000 arcsec per pixel. -/
theorem c7_centre_pixel_pointing_witness :
    unit_conversion ⟨59/1000, (100, 200), (512, 512), 4, 3⟩ ⟨"pix", (512, 512)⟩ "arcsec" true
      = Except.ok (some ⟨"arcsec", (100, 200)⟩) :=
  c7_centre_pixel_pointing ⟨59/1000, (100, 200), (512, 512), 4, 3⟩ (by norm_num)

/-- Claim C8: with centre false, converting a pixel coordinate to arcseconds
(crisp.py line 201) and the result back to pixels (crisp.py line 196)
recovers each component within one half pixel, and exactly when the
component is a whole number of pixels. -/
theorem c8_pixel_arcsec_roundtrip (s : CRISP) (h : 0 < s.px_res) (v : ℚ × ℚ) :
    ∃ w : ℚ × ℚ,
      unit_conversion s ⟨"pix", v⟩ "arcsec" false
        = Except.ok (some ⟨"arcsec", pmap (fun x => x * s.px_res) v⟩) ∧
      unit_conversion s ⟨"arcsec", pmap (fun x => x * s.px_res) v⟩ "pix" false
        = Except.ok (some ⟨"pix", w⟩) ∧
      |w.1 - v.1| ≤ 1/2 ∧ |w.2 - v.2| ≤ 1/2 ∧
      (∀ m n : ℤ, v = ((m : ℚ), (n : ℚ)) → w = v) := by
  have hne : s.px_res ≠ 0 := ne_of_gt h
  refine ⟨proundq (pmap (fun x => x / s.px_res) (pmap (fun x => x * s.px_res) v)),
    rfl, rfl, ?_, ?_, ?_⟩
  · show |(roundHalfEven (v.1 * s.px_res / s.px_res) : ℚ) - v.1| ≤ 1/2
    rw [mul_div_cancel_right₀ _ hne]
    exact roundHalfEven_abs_sub_le v.1
  · show |(roundHalfEven (v.2 * s.px_res / s.px_res) : ℚ) - v.2| ≤ 1/2
    rw [mul_div_cancel_right₀ _ hne]
    exact roundHalfEven_abs_sub_le v.2
  · rintro m n rfl
    show ((roundHalfEven ((m : ℚ) * s.px_res / s.px_res) : ℚ),
          (roundHalfEven ((n : ℚ) * s.px_res / s.px_res) : ℚ)) = ((m : ℚ), (n : ℚ))
    rw [mul_div_cancel_right₀ _ hne, mul_div_cancel_right₀ _ hne,
      roundHalfEven_intCast, roundHalfEven_intCast]

/-- Claim C8 witness at the concrete resolution 59/1000 arcsec per pixel and
the whole pixel coordinate (10, 10), the example pairing of the spec. -/
theorem c8_pixel_arcsec_roundtrip_witness :
    ∃ w : ℚ × ℚ,
      unit_conversion ⟨59/1000, (100, 200), (512, 512), 4, 3⟩ ⟨"pix", (10, 10)⟩ "arcsec" false
        = Except.ok (some ⟨"arcsec", pmap (fun x => x * (59/1000 : ℚ)) (10, 10)⟩) ∧
      unit_conversion ⟨59/1000, (100, 200), (512, 512), 4, 3⟩
          ⟨"arcsec", pmap (fun x => x * (59/1000 : ℚ)) (10, 10)⟩ "pix" false
        = Except.ok (some ⟨"pix", w⟩) ∧
      |w.1 - 10| ≤ 1/2 ∧ |w.2 - 10| ≤ 1/2 ∧
      (∀ m n : ℤ, ((10 : ℚ), (10 : ℚ)) = ((m : ℚ), (n : ℚ)) → w = (10, 10)) :=
  c8_pixel_arcsec_roundtrip ⟨59/1000, (100, 200), (512, 512), 4, 3⟩ (by norm_num) (10, 10)

/-! ## Intensity-vector extraction (crisp.py lines 241 to 274) -/

/-- ASCII lowercasing of one character, the effect of the Python str.lower
method on the line names used here. -/
def pyLowerChar (c : Char) : Char :=
  if 'A' ≤ c ∧ c ≤ 'Z' then Char.ofNat (c.toNat + 32) else c

/-- The Python string method lower, on ASCII strings. -/
def pyLower (s : String) : String := String.mk (s.data.map pyLowerChar)

/-- The array slice returned by CRISP.intensity_vector, recording which
indexing expression of the source produced it and at which pixel. -/
inductive IVRes where
  | caStokesI (c : ℚ × ℚ)
  | caCube (c : ℚ × ℚ)
  | caFull (c : ℚ × ℚ)
  | haVec (c : ℚ × ℚ)
  | pyNone
  deriving DecidableEq, Repr

/-- CRISP.intensity_vector, crisp.py lines 241 to 274.  The line 257 guard
compares `line` with "ha" exactly, while the later dispatch lowercases it.
The coordinate is converted to pixel units first (line 260); a conversion
that returned None would only fail later, at the indexing that unpacks the
pixel pair, which the inner match arms record as a TypeError. -/
def intensity_vector (s : CRISP) (coord : PyCoord) (line : String) (pol centre : Bool) :
    Except PyErr IVRes :=
  if line == "ha" && pol then .error .wiseGuyError
  else
    match unit_conversion s coord "pix" centre with
    | .error e => .error e
    | .ok copt =>
      if pyLower line == "ca" then
        if !pol then
          if s.ca_ndim == 4 then
            match copt with
            | some c => .ok (.caStokesI c.val)
            | none => .error .typeError
          else
            match copt with
            | some c => .ok (.caCube c.val)
            | none => .error .typeError
        else
          if s.ca_ndim == 4 then
            match copt with
            | some c => .ok (.caFull c.val)
            | none => .error .typeError
          else .error .wiseGuyError
      else if pyLower line == "ha" then
        match copt with
        | some c => .ok (.haVec c.val)
        | none => .error .typeError
      else .ok .pyNone

/-- Conversion to pixel units succeeds with a present coordinate whenever the
source unit is one of the three units the method handles. -/
theorem uc_pix_total (s : CRISP) (coord : PyCoord) (centre : Bool)
    (h : coord.unit = "pix" ∨ coord.unit = "arcsec" ∨ coord.unit = "megameter") :
    ∃ c, unit_conversion s coord "pix" centre = Except.ok (some c) := by
  obtain ⟨cu, cv⟩ := coord
  rcases h with h | h | h <;> subst h <;> cases centre
  · exact ⟨_, rfl⟩
  · exact ⟨_, rfl⟩
  · exact ⟨_, rfl⟩
  · exact ⟨_, rfl⟩
  · exact ⟨_, rfl⟩
  · exact ⟨_, rfl⟩

/-- Lowercasing fixes the literal "ca". -/
theorem pyLower_ca_lit : pyLower "ca" = "ca" := by decide

/-- Lowercasing fixes the literal "ha". -/
theorem pyLower_ha_lit : pyLower "ha" = "ha" := by decide

/-! ## Theorems for claims C6 and C9 -/

/-- Claim C6: with a line named in lower case, a coordinate in one of the
three handled units and a calcium array of 3 or 4 dimensions,
intensity_vector raises WiseGuyError exactly when the line is "ha" with the
polarimetric flag set, or the polarimetric flag is set with a 3-dimensional
calcium array; in every other combination it returns a vector without
raising. -/
theorem c6_intensity_vector_raises (s : CRISP) (coord : PyCoord) (centre pol : Bool)
    (line : String)
    (hline : line = "ca" ∨ line = "ha")
    (hunit : coord.unit = "pix" ∨ coord.unit = "arcsec" ∨ coord.unit = "megameter")
    (hnd : s.ca_ndim = 3 ∨ s.ca_ndim = 4) :
    (intensity_vector s coord line pol centre = Except.error PyErr.wiseGuyError ↔
      ((line = "ha" ∧ pol = true) ∨ (pol = true ∧ s.ca_ndim = 3))) ∧
    (¬((line = "ha" ∧ pol = true) ∨ (pol = true ∧ s.ca_ndim = 3)) →
      ∃ r, intensity_vector s coord line pol centre = Except.ok r ∧ r ≠ IVRes.pyNone) := by
  obtain ⟨c, hc⟩ := uc_pix_total s coord centre hunit
  rcases hline with h | h <;> subst h <;>
    rcases hnd with h4 | h4 <;>
    cases pol <;>
    simp [intensity_vector, hc, h4, pyLower_ca_lit, pyLower_ha_lit]

/-- Claim C6 witness: a 3-dimensional calcium array with the polarimetric
flag set raises WiseGuyError. -/
theorem c6_intensity_vector_raises_witness :
    intensity_vector ⟨59/1000, (100, 200), (512, 512), 3, 3⟩ ⟨"pix", (5, 6)⟩ "ca" true false
      = Except.error PyErr.wiseGuyError :=
  ((c6_intensity_vector_raises ⟨59/1000, (100, 200), (512, 512), 3, 3⟩ ⟨"pix", (5, 6)⟩
      false true "ca" (Or.inl rfl) (Or.inl rfl) (Or.inl rfl)).1).mpr
    (Or.inr ⟨rfl, rfl⟩)

/-- Claim C9: the line 257 guard is case-sensitive while the dispatch
lowercases the line name, so any spelling of "ha" other than the exact
lowercase one, with the polarimetric flag set, bypasses the guard and
returns the H-alpha data slice without raising. -/
theorem c9_mixed_case_guard_bypass (s : CRISP) (coord : PyCoord) (centre : Bool)
    (line : String) (hl : pyLower line = "ha") (hne : line ≠ "ha")
    (hunit : coord.unit = "pix" ∨ coord.unit = "arcsec" ∨ coord.unit = "megameter") :
    ∃ c, intensity_vector s coord line true centre = Except.ok (IVRes.haVec c) := by
  obtain ⟨c, hc⟩ := uc_pix_total s coord centre hunit
  have h0 : (line == "ha") = false := beq_eq_false_iff_ne.mpr hne
  refine ⟨c.val, ?_⟩
  simp [intensity_vector, h0, hl, hc]

/-- Claim C9 witness at the spelling "Ha" with a pixel coordinate. -/
theorem c9_mixed_case_guard_bypass_witness :
    ∃ c, intensity_vector ⟨59/1000, (100, 200), (512, 512), 3, 3⟩ ⟨"pix", (5, 6)⟩ "Ha" true false
      = Except.ok (IVRes.haVec c) :=
  c9_mixed_case_guard_bypass ⟨59/1000, (100, 200), (512, 512), 3, 3⟩ ⟨"pix", (5, 6)⟩
    false "Ha" (by decide) (by decide) (Or.inl rfl)

/-! ## Inversion slicing (mixin.py lines 38 to 56, claim C10) -/

/-- Names defined at the top level of mixin.py: the two imported names and
the three classes.  Neither `z` nor `header` is among them (nor are they
Python builtins), so reading either as a free name raises NameError. -/
def mixinModuleDefines (n : String) : Bool :=
  n == "NDSlicingMixin" || n == "ObjDict" || n == "CRISPSlicingMixin" ||
    n == "CRISPSequenceSlicingMixin" || n == "InversionSlicingMixin"

/-- InversionSlicingMixin._slice, mixin.py lines 47 to 56.  The five inputs
are the results of the item lookups the body performs in order
(self.ne[item], self.temp[item], self.vel[item], self.err[item],
self._slice_wcs(item)); each may itself raise.  After them the body executes
`kwargs["z"] = z` and `kwargs["header"] = header`, reading the free names z
and header, and ends without a return statement, so completing the body
would produce None rather than a kwargs mapping. -/
def inversionMixin_slice {α : Type} (ne_item temp_item vel_item mad_item wcs_item : Except PyErr α) :
    Except PyErr (Option (List (String × α))) := do
  let _ ← ne_item
  let _ ← temp_item
  let _ ← vel_item
  let _ ← mad_item
  let _ ← wcs_item
  if mixinModuleDefines "z" then
    if mixinModuleDefines "header" then
      Except.ok none
    else Except.error PyErr.nameError
  else Except.error PyErr.nameError

/-- Claim C10: slicing an Inversion object always fails: whatever the item
lookups return, _slice raises (a NameError from the undefined name z when
the lookups all succeed) and never returns a kwargs mapping. -/
theorem c10_inversion_slice_always_fails {α : Type}
    (ne_item temp_item vel_item mad_item wcs_item : Except PyErr α) :
    (∃ e, inversionMixin_slice ne_item temp_item vel_item mad_item wcs_item
        = Except.error e) ∧
    (∀ v1 v2 v3 v4 v5 : α,
      inversionMixin_slice (Except.ok v1) (Except.ok v2) (Except.ok v3) (Except.ok v4)
        (Except.ok v5) = Except.error PyErr.nameError) ∧
    ∀ k, inversionMixin_slice ne_item temp_item vel_item mad_item wcs_item ≠ Except.ok k := by
  refine ⟨?_, fun v1 v2 v3 v4 v5 => rfl, ?_⟩
  · cases ne_item with
    | error e => exact ⟨e, rfl⟩
    | ok a =>
      cases temp_item with
      | error e => exact ⟨e, rfl⟩
      | ok b =>
        cases vel_item with
        | error e => exact ⟨e, rfl⟩
        | ok c =>
          cases mad_item with
          | error e => exact ⟨e, rfl⟩
          | ok d =>
            cases wcs_item with
            | error e => exact ⟨e, rfl⟩
            | ok w => exact ⟨PyErr.nameError, rfl⟩
  · intro k hk
    cases ne_item with
    | error e => exact Except.noConfusion hk
    | ok a =>
      cases temp_item with
      | error e => exact Except.noConfusion hk
      | ok b =>
        cases vel_item with
        | error e => exact Except.noConfusion hk
        | ok c =>
          cases mad_item with
          | error e => exact Except.noConfusion hk
          | ok d =>
            cases wcs_item with
            | error e => exact Except.noConfusion hk
            | ok w => exact Except.noConfusion hk

end CrisPy2
